import Mathlib

/-!
Shallow embedding of `src/du-number-checker.py`, a du phone-number
availability checker with Telegram alerts.

The pure string logic (normalization, substring containment,
classification) is translated directly from the source.  The browser and
the network are external collaborators; their behaviour is modelled by
explicit environment values (`Except String _` for calls that may raise an
exception), and each modelled function additionally returns an event trace
recording log lines and HTTP posts, so that properties such as "zero HTTP
calls" and "a warning is logged" are statable.
-/

/-- Contiguous-substring test on character lists: `containsAux needle hay`
is true iff `needle` occurs contiguously inside `hay`.  The empty needle
occurs in every list, as with the Python `in` operator on strings. -/
def containsAux (needle : List Char) : List Char → Bool
  | [] => needle.isEmpty
  | c :: rest => needle.isPrefixOf (c :: rest) || containsAux needle rest

/-- Python `needle in hay` for strings (contiguous substring containment). -/
def strContains (hay needle : String) : Bool :=
  containsAux needle.data hay.data

/-- Python `s.replace(" ", "")`: removes every occurrence of the space
character U+0020 (and only that character; tabs and newlines stay). -/
def stripSpaces (s : String) : String :=
  String.mk (s.data.filter (fun c => c != ' '))

/-- Observable events of a run: a printed log line, or an HTTP POST
(`requests.post`) carrying the endpoint URL and the form fields. -/
inductive Event
  | log (msg : String)
  | httpPost (url chatId text : String)
deriving DecidableEq

/-- Is this event an HTTP call? -/
def Event.isHttp : Event → Bool
  | Event.httpPost _ _ _ => true
  | Event.log _ => false

/-- A run trace: the sequence of observable events. -/
abbrev Trace := List Event

/-- The messaging endpoint built in `send_telegram_message`:
`"https://api.telegram.org/bot{token}/sendMessage"`. -/
def telegramUrl (token : String) : String :=
  "https://api.telegram.org/bot" ++ token ++ "/sendMessage"

/-- The credential guard of `send_telegram_message`:
`not token or not chat_id or "PUT_YOUR" in token or "PUT_YOUR" in chat_id`
(in Python, `not s` on a string is true exactly when `s` is empty). -/
def credGuard (token chatId : String) : Bool :=
  token == "" || chatId == "" ||
    strContains token "PUT_YOUR" || strContains chatId "PUT_YOUR"

/-- `send_telegram_message(text)`.  `net` is the outcome the network gives
to `requests.post`: `Except.ok status` for a response with that status
code, `Except.error e` for a transport exception.  The result pairs the
event trace with the function outcome; the `Except.error` branch of the
match embeds the `except Exception` handler of the source, so the
function outcome is always `Except.ok ()` (no exception escapes). -/
def send_telegram_message (token chatId text : String) (net : Except String Nat) :
    Trace × Except String Unit :=
  if credGuard token chatId then
    ([Event.log "[WARN] Telegram credentials not set; skipping notification."],
     Except.ok ())
  else
    match net with
    | Except.ok status =>
        if status != 200 then
          ([Event.httpPost (telegramUrl token) chatId text,
            Event.log "[ERROR] Failed to send Telegram message:"], Except.ok ())
        else
          ([Event.httpPost (telegramUrl token) chatId text,
            Event.log "[INFO] Telegram notification sent."], Except.ok ())
    | Except.error e =>
        ([Event.httpPost (telegramUrl token) chatId text,
          Event.log ("[ERROR] Exception while sending Telegram message: " ++ e)],
         Except.ok ())

/-- A handle to the search input, tagged with the strategy that found it
(`loc.first` of the placeholder locator, `loc.first` of the role/name
locator, or the i-th generic text/search input candidate). -/
inductive SearchBox
  | placeholderFirst
  | roleFirst
  | candidate (i : Nat)
deriving DecidableEq

/-- Environment for `get_search_box`: what the page gives each strategy.
For the placeholder and role/name lookups, `Except.ok n` is a locator
count of `n` and `Except.error e` an exception (caught by the source's
`try`).  `candidates` lists, for each `input[type=text/search]` element in
page order, the outcome of its `is_visible()` call (`Except.error` when
that call raises; the source then `continue`s). -/
structure SearchBoxEnv where
  placeholderResult : Except String Nat
  roleResult : Except String Nat
  candidates : List (Except String Bool)

/-- The fallback scan of strategy 3: return the first candidate whose
`is_visible()` returns true; skip candidates that raise or are invisible;
`none` when the list is exhausted. -/
def scanCandidates (i : Nat) : List (Except String Bool) → Option SearchBox
  | [] => none
  | r :: rest =>
    match r with
    | Except.ok true => some (SearchBox.candidate i)
    | _ => scanCandidates (i + 1) rest

/-- `get_search_box(page)`: placeholder lookup, then role/name lookup
(each used only when its locator count is positive, exceptions swallowed),
then the generic visible-input scan; `none` when all three fail. -/
def get_search_box (env : SearchBoxEnv) : Option SearchBox :=
  match
    (match env.placeholderResult with
     | Except.ok n => if 0 < n then some SearchBox.placeholderFirst else none
     | Except.error _ => none) with
  | some b => some b
  | none =>
    match
      (match env.roleResult with
       | Except.ok n => if 0 < n then some SearchBox.roleFirst else none
       | Except.error _ => none) with
    | some b => some b
    | none => scanCandidates 0 env.candidates

/-- Per-query environment: either some step of click/fill/press/wait/read
raised (`exn e`), or the page settles and `page.text_content("body")`
returns `t` (`none` models Python `None`, turned into `""` by
`body_text = ... or ""`). -/
inductive QueryOutcome
  | exn (e : String)
  | page (t : Option String)
deriving DecidableEq

/-- Classification of one query result. -/
inductive Classification
  | unavailable
  | available
  | ambiguous
deriving DecidableEq

/-- The classification branch of `check_numbers`:
`if "No results found" in body_text` (raw text) → unavailable;
`elif normalized_fragment in normalized_body` (both space-stripped)
→ available; `else` → ambiguous. -/
def classify (body fragment : String) : Classification :=
  if strContains body "No results found" then Classification.unavailable
  else if strContains (stripSpaces body) (stripSpaces fragment) then Classification.available
  else Classification.ambiguous

/-- The log line `"[INFO] Checking number '{}'..."`. -/
def checkingLog (sv : String) : Event :=
  Event.log ("[INFO] Checking number \x27" ++ sv ++ "\x27...")

/-- The per-number loop of `check_numbers`, over (query, outcome) pairs:
an exception is caught and logged and the query contributes nothing; a
page text is classified and the query is appended to `available` exactly
when the classification is `available`.  Returns the collected available
list together with the trace of the loop. -/
def runQueries : List ((String × String) × QueryOutcome) → List (String × String) × Trace
  | [] => ([], [])
  | (q, o) :: rest =>
    let r := runQueries rest
    match o with
    | QueryOutcome.exn e =>
        (r.1,
         checkingLog q.1 ::
           Event.log ("[ERROR] Error while checking \x27" ++ q.1 ++ "\x27: " ++ e) :: r.2)
    | QueryOutcome.page t =>
        match classify (t.getD "") q.2 with
        | Classification.unavailable =>
            (r.1,
             checkingLog q.1 ::
               Event.log ("[INFO] \x27" ++ q.1 ++ "\x27 not available (No results found).") :: r.2)
        | Classification.available =>
            (q :: r.1,
             checkingLog q.1 ::
               Event.log ("[INFO] \x27" ++ q.2 ++ "\x27 appears to be AVAILABLE.") :: r.2)
        | Classification.ambiguous =>
            (r.1,
             checkingLog q.1 ::
               Event.log ("[WARN] Ambiguous result for \x27" ++ q.1 ++
                 "\x27. Did not see \x27No results found\x27 or the exact fragment.") :: r.2)

/-- Environment for one `check_numbers` run: the outcome of
`open_du_number_modal` (which may raise, caught by the outer handler),
the page state seen by `get_search_box`, and one `QueryOutcome` per
configured query, in order. -/
structure CheckEnv where
  setup : Except String Unit
  sb : SearchBoxEnv
  outcomes : List QueryOutcome

/-- `check_numbers()`, parameterized by the configured query list and the
environment.  A setup exception is caught by the outer handler and the
untouched `available = []` is returned; a missing search box logs an
error and returns `[]`; otherwise the loop runs. -/
def check_numbers (queries : List (String × String)) (env : CheckEnv) :
    List (String × String) × Trace :=
  match env.setup with
  | Except.error e =>
      ([], [Event.log ("[ERROR] Failed during page setup or modal open: " ++ e)])
  | Except.ok _ =>
    match get_search_box env.sb with
    | none =>
        ([], [Event.log "[INFO] Locating search input in modal...",
              Event.log "[ERROR] Could not find any suitable search input."])
    | some _ =>
        let r := runQueries (queries.zip env.outcomes)
        (r.1, Event.log "[INFO] Locating search input in modal..." :: r.2)

/-- The configured number list `NUMBERS_TO_CHECK`. -/
def NUMBERS_TO_CHECK : List (String × String) :=
  [("282 0202", "282 0202"), ("1051661", "1051661")]

/-- The header line of the notification message. -/
def headerLine : String :=
  "The following numbers appear to be available on du:"

/-- The `lines` list built in `main`: start from `[header]`, then append
`"- {match_fragment}"` once per available entry, in order. -/
def buildLines (available : List (String × String)) : List String :=
  available.foldl (fun lines q => lines ++ ["- " ++ q.2]) [headerLine]

/-- `message = "\n".join(lines)`. -/
def composeMessage (available : List (String × String)) : String :=
  String.intercalate "\n" (buildLines available)

/-- `main()` (renamed `main_run`, since Lean reserves `main` for IO
entry points): run the check; if nothing is available log and return,
otherwise compose the message and send it. -/
def main_run (queries : List (String × String)) (env : CheckEnv)
    (token chatId : String) (net : Except String Nat) : Trace :=
  let r := check_numbers queries env
  Event.log "[INFO] Starting du number check..." ::
    r.2 ++
      (if r.1.isEmpty then
        [Event.log "[INFO] No numbers available today."]
      else
        Event.log "[INFO] At least one number appears available. Sending Telegram alert..." ::
          (send_telegram_message token chatId (composeMessage r.1) net).1)

/-- The empty needle occurs in every character list. -/
theorem containsAux_nil (l : List Char) : containsAux [] l = true := by
  cases l <;> simp [containsAux, List.isPrefixOf]

/-- The per-number loop distributes over list append, componentwise: the
available entries and the trace of a concatenation are the concatenations. -/
theorem runQueries_append (a b : List ((String × String) × QueryOutcome)) :
    runQueries (a ++ b) =
      ((runQueries a).1 ++ (runQueries b).1, (runQueries a).2 ++ (runQueries b).2) := by
  induction a with
  | nil => simp [runQueries]
  | cons p a ih =>
    obtain ⟨q, o⟩ := p
    cases o with
    | exn e => simp [runQueries, ih]
    | page t =>
      cases hc : classify (t.getD "") q.2 <;> simp [runQueries, ih, hc]

/-- The per-number loop performs no HTTP call: every event it emits is a
log line. -/
theorem runQueries_no_http (l : List ((String × String) × QueryOutcome)) :
    ∀ ev ∈ (runQueries l).2, Event.isHttp ev = false := by
  induction l with
  | nil => simp [runQueries]
  | cons p rest ih =>
    obtain ⟨q, o⟩ := p
    cases o with
    | exn e => simpa [runQueries, checkingLog, Event.isHttp] using ih
    | page t =>
      cases hc : classify (t.getD "") q.2 <;>
        simpa [runQueries, hc, checkingLog, Event.isHttp] using ih

/-- `check_numbers` performs no HTTP call: every event in its trace is a
log line. -/
theorem check_trace_no_http (queries : List (String × String)) (env : CheckEnv) :
    ∀ ev ∈ (check_numbers queries env).2, Event.isHttp ev = false := by
  cases hs : env.setup with
  | error e => simp [check_numbers, hs, Event.isHttp]
  | ok u =>
    cases hb : get_search_box env.sb with
    | none => simp [check_numbers, hs, hb, Event.isHttp]
    | some box =>
      simpa [check_numbers, hs, hb, Event.isHttp] using
        runQueries_no_http (queries.zip env.outcomes)

/-- When no candidate reports `is_visible() == true`, the fallback scan
returns `none`, whatever the starting index. -/
theorem scanCandidates_none (l : List (Except String Bool)) (i : Nat)
    (h : ∀ r ∈ l, r ≠ Except.ok true) : scanCandidates i l = none := by
  induction l generalizing i with
  | nil => rfl
  | cons r rest ih =>
    have hr : r ≠ Except.ok true := h r (List.mem_cons_self r rest)
    have hrest : ∀ x ∈ rest, x ≠ Except.ok true := fun x hx => h x (List.mem_cons_of_mem r hx)
    cases r with
    | error e => simpa [scanCandidates] using ih (i + 1) hrest
    | ok b =>
      cases b with
      | true => exact absurd rfl hr
      | false => simpa [scanCandidates] using ih (i + 1) hrest

/-- Folding bullet-appending over the available list starting from any
accumulator appends one bullet per entry, in order. -/
theorem foldl_bullets (available : List (String × String)) (acc : List String) :
    available.foldl (fun lines q => lines ++ ["- " ++ q.2]) acc =
      acc ++ available.map (fun q => "- " ++ q.2) := by
  induction available generalizing acc with
  | nil => simp
  | cons q rest ih => simp [List.foldl_cons, ih]

/-- A bullet line never equals the header line (their first characters
differ). -/
theorem bullet_ne_header (s : String) : ("- " ++ s) ≠ headerLine := by
  intro hcontra
  have hd := congrArg String.data hcontra
  rw [String.data_append] at hd
  simp [headerLine, String.data] at hd

/-- Claim C1: for every query, if the rendered result text read after
submitting the query contains the literal "No results found" marker, the
query is classified unavailable and excluded from the available set,
regardless of whether the normalized expectedFragment is also contained
in the normalized page text (the fragment `mf` is universally
quantified). -/
theorem claim1_no_results_marker_excludes
    (pre post : List ((String × String) × QueryOutcome))
    (sv mf : String) (t : Option String)
    (h : strContains (t.getD "") "No results found" = true) :
    classify (t.getD "") mf = Classification.unavailable ∧
    (runQueries (pre ++ ((sv, mf), QueryOutcome.page t) :: post)).1 =
      (runQueries pre).1 ++ (runQueries post).1 := by
  have hc : classify (t.getD "") mf = Classification.unavailable := by
    simp [classify, h]
  refine ⟨hc, ?_⟩
  rw [runQueries_append]
  simp [runQueries, hc]

/-- Witness for C1: a page that shows the marker and also contains the
fragment "282 0202" is still excluded. -/
theorem claim1_witness :
    classify ((some "No results found 282 0202").getD "") "282 0202" =
      Classification.unavailable ∧
    (runQueries ([] ++
        (("282 0202", "282 0202"),
          QueryOutcome.page (some "No results found 282 0202")) :: [])).1 =
      (runQueries []).1 ++ (runQueries []).1 :=
  claim1_no_results_marker_excludes [] [] "282 0202" "282 0202"
    (some "No results found 282 0202") (by decide)

/-- Counterexample to C2 as stated: the page text "282\n0202" and the
fragment "2820202" differ only in whitespace placement (a newline), the
no-results marker is absent, yet the code classifies the query ambiguous,
not available — `replace(" ", "")` strips only the space character, not
all whitespace. -/
theorem claim2_counterexample :
    strContains "282\n0202" "No results found" = false ∧
    classify "282\n0202" "2820202" = Classification.ambiguous ∧
    Classification.ambiguous ≠ Classification.available := by
  decide

/-- Claim C2 (amended): classification is space-insensitive, not
whitespace-insensitive.  When the no-results marker is absent from both
page texts, classification depends only on the space-stripped page text
and space-stripped fragment; in particular a space-stripped containment
yields `available`. -/
theorem claim2_space_insensitive (body body2 frag frag2 : String)
    (hb : strContains body "No results found" = false)
    (hb2 : strContains body2 "No results found" = false)
    (eb : stripSpaces body = stripSpaces body2)
    (ef : stripSpaces frag = stripSpaces frag2) :
    classify body frag = classify body2 frag2 ∧
    (strContains (stripSpaces body) (stripSpaces frag) = true →
      classify body frag = Classification.available) := by
  constructor
  · simp [classify, hb, hb2, eb, ef]
  · intro hcont
    simp [classify, hb, hcont]

/-- Witness for C2 (amended): "result: 2820202" with fragment "282 0202"
classifies the same as "result: 282 0202" with fragment "2820202", and
both are available. -/
theorem claim2_witness :
    classify "result: 2820202" "282 0202" = classify "result: 282 0202" "2820202" ∧
    (strContains (stripSpaces "result: 2820202") (stripSpaces "282 0202") = true →
      classify "result: 2820202" "282 0202" = Classification.available) :=
  claim2_space_insensitive "result: 2820202" "result: 282 0202" "282 0202" "2820202"
    (by decide) (by decide) (by decide) (by decide)

/-- Claim C3: for an available set with at least one entry, the lines of
the composed message are exactly one header line followed by exactly N
bullet lines "- expectedFragment", in the original order (no bullet line
ever coincides with the header line), and the message joins those lines
with newlines. -/
theorem claim3_message_shape (available : List (String × String))
    (_h : available ≠ []) :
    buildLines available = headerLine :: available.map (fun q => "- " ++ q.2) ∧
    (buildLines available).length = available.length + 1 ∧
    (∀ l ∈ (buildLines available).tail, l ≠ headerLine) ∧
    composeMessage available =
      String.intercalate "\n" (headerLine :: available.map (fun q => "- " ++ q.2)) := by
  have he : buildLines available = headerLine :: available.map (fun q => "- " ++ q.2) := by
    simpa [buildLines] using foldl_bullets available [headerLine]
  refine ⟨he, ?_, ?_, ?_⟩
  · rw [he]
    simp
  · rw [he]
    intro l hl
    simp only [List.tail_cons, List.mem_map] at hl
    obtain ⟨q, hq, rfl⟩ := hl
    exact bullet_ne_header q.2
  · unfold composeMessage
    rw [he]

/-- Witness for C3: the spec scenario, available set `[("1051661",
"1051661")]`, yields the header plus one bullet. -/
theorem claim3_witness :
    buildLines [("1051661", "1051661")] =
      headerLine :: [("1051661", "1051661")].map (fun q => "- " ++ q.2) ∧
    (buildLines [("1051661", "1051661")]).length = [("1051661", "1051661")].length + 1 ∧
    (∀ l ∈ (buildLines [("1051661", "1051661")]).tail, l ≠ headerLine) ∧
    composeMessage [("1051661", "1051661")] =
      String.intercalate "\n"
        (headerLine :: [("1051661", "1051661")].map (fun q => "- " ++ q.2)) :=
  claim3_message_shape [("1051661", "1051661")] (by decide)

/-- Claim C4: when the available set is empty, the entrypoint logs the
no-numbers line and returns; no message is composed, the notifier is
never reached, and the whole run trace contains zero HTTP calls. -/
theorem claim4_empty_available_no_send
    (queries : List (String × String)) (env : CheckEnv)
    (token chatId : String) (net : Except String Nat)
    (h : (check_numbers queries env).1 = []) :
    main_run queries env token chatId net =
      Event.log "[INFO] Starting du number check..." ::
        (check_numbers queries env).2 ++ [Event.log "[INFO] No numbers available today."] ∧
    ∀ ev ∈ main_run queries env token chatId net, Event.isHttp ev = false := by
  have hm : main_run queries env token chatId net =
      Event.log "[INFO] Starting du number check..." ::
        (check_numbers queries env).2 ++ [Event.log "[INFO] No numbers available today."] := by
    simp [main_run, h]
  refine ⟨hm, ?_⟩
  rw [hm]
  intro ev hev
  rcases List.mem_cons.mp hev with rfl | hev2
  · rfl
  · rcases List.mem_append.mp hev2 with h3 | h3
    · exact check_trace_no_http queries env ev h3
    · simp only [List.mem_singleton] at h3
      subst h3
      rfl

/-- Witness for C4: a run whose setup raises has an empty available set,
and its trace is logs only. -/
theorem claim4_witness :
    main_run NUMBERS_TO_CHECK
        ⟨Except.error "boom", ⟨Except.ok 0, Except.ok 0, []⟩, []⟩ "t" "c" (Except.ok 200) =
      Event.log "[INFO] Starting du number check..." ::
        (check_numbers NUMBERS_TO_CHECK
            ⟨Except.error "boom", ⟨Except.ok 0, Except.ok 0, []⟩, []⟩).2 ++
          [Event.log "[INFO] No numbers available today."] ∧
    ∀ ev ∈ main_run NUMBERS_TO_CHECK
        ⟨Except.error "boom", ⟨Except.ok 0, Except.ok 0, []⟩, []⟩ "t" "c" (Except.ok 200),
      Event.isHttp ev = false :=
  claim4_empty_available_no_send NUMBERS_TO_CHECK
    ⟨Except.error "boom", ⟨Except.ok 0, Except.ok 0, []⟩, []⟩ "t" "c" (Except.ok 200)
    (by decide)

/-- Claim C5: per-query failure isolation.  A query whose steps raise an
exception is caught and logged, contributes nothing to the available set,
and the queries before and after it are classified exactly as they would
be on their own. -/
theorem claim5_per_query_isolation
    (qs1 qs2 : List (String × String)) (q : String × String)
    (os1 os2 : List QueryOutcome) (e : String)
    (h : qs1.length = os1.length) :
    (runQueries ((qs1 ++ q :: qs2).zip (os1 ++ QueryOutcome.exn e :: os2))).1 =
      (runQueries (qs1.zip os1)).1 ++ (runQueries (qs2.zip os2)).1 ∧
    Event.log ("[ERROR] Error while checking \x27" ++ q.1 ++ "\x27: " ++ e) ∈
      (runQueries ((qs1 ++ q :: qs2).zip (os1 ++ QueryOutcome.exn e :: os2))).2 := by
  rw [List.zip_append h, List.zip_cons_cons, runQueries_append]
  constructor
  · simp [runQueries]
  · simp [runQueries, checkingLog]

/-- Witness for C5: the spec scenario with the first query raising — the
second query is still classified and found available. -/
theorem claim5_witness :
    (runQueries ((([] ++ ("282 0202", "282 0202") :: [("1051661", "1051661")]).zip
        ([] ++ QueryOutcome.exn "Element is detached" ::
          [QueryOutcome.page (some "1051661 is available now")])))).1 =
      (runQueries (List.zip [] [])).1 ++
        (runQueries ([("1051661", "1051661")].zip
          [QueryOutcome.page (some "1051661 is available now")])).1 ∧
    Event.log ("[ERROR] Error while checking \x27" ++ ("282 0202", "282 0202").1 ++
        "\x27: " ++ "Element is detached") ∈
      (runQueries ((([] ++ ("282 0202", "282 0202") :: [("1051661", "1051661")]).zip
        ([] ++ QueryOutcome.exn "Element is detached" ::
          [QueryOutcome.page (some "1051661 is available now")])))).2 :=
  claim5_per_query_isolation [] [("1051661", "1051661")] ("282 0202", "282 0202")
    [] [QueryOutcome.page (some "1051661 is available now")] "Element is detached" rfl

/-- Claim C6: if the placeholder lookup, the role/name lookup and the
generic visible-input scan all fail, `get_search_box` returns `none`
rather than raising, the run returns an empty available set, and the
whole run — including the entrypoint — performs no HTTP call and raises
nothing. -/
theorem claim6_missing_search_input
    (queries : List (String × String)) (env : CheckEnv)
    (token chatId : String) (net : Except String Nat)
    (hs : env.setup = Except.ok ())
    (h1 : ∀ n, env.sb.placeholderResult = Except.ok n → n = 0)
    (h2 : ∀ n, env.sb.roleResult = Except.ok n → n = 0)
    (h3 : ∀ r ∈ env.sb.candidates, r ≠ Except.ok true) :
    get_search_box env.sb = none ∧
    (check_numbers queries env).1 = [] ∧
    ∀ ev ∈ main_run queries env token chatId net, Event.isHttp ev = false := by
  have hscan := scanCandidates_none env.sb.candidates 0 h3
  have hg : get_search_box env.sb = none := by
    unfold get_search_box
    cases hp : env.sb.placeholderResult with
    | error e =>
      cases hr : env.sb.roleResult with
      | error e2 => simpa using hscan
      | ok n =>
        have hn := h2 n hr
        subst hn
        simpa using hscan
    | ok n =>
      have hn := h1 n hp
      subst hn
      cases hr : env.sb.roleResult with
      | error e2 => simpa using hscan
      | ok m =>
        have hm := h2 m hr
        subst hm
        simpa using hscan
  have hc : check_numbers queries env =
      ([], [Event.log "[INFO] Locating search input in modal...",
            Event.log "[ERROR] Could not find any suitable search input."]) := by
    simp [check_numbers, hs, hg]
  refine ⟨hg, by rw [hc], ?_⟩
  intro ev hev
  simp [main_run, hc] at hev
  rcases hev with rfl | rfl | rfl | rfl <;> rfl

/-- Witness for C6: placeholder lookup raises, role lookup counts zero,
both candidates fail visibility — the run finds nothing and posts
nothing. -/
theorem claim6_witness :
    get_search_box
      (CheckEnv.mk (Except.ok ())
        ⟨Except.error "timeout", Except.ok 0, [Except.ok false, Except.error "detached"]⟩
        [QueryOutcome.page (some "x"), QueryOutcome.page (some "y")]).sb = none ∧
    (check_numbers NUMBERS_TO_CHECK
      (CheckEnv.mk (Except.ok ())
        ⟨Except.error "timeout", Except.ok 0, [Except.ok false, Except.error "detached"]⟩
        [QueryOutcome.page (some "x"), QueryOutcome.page (some "y")])).1 = [] ∧
    ∀ ev ∈ main_run NUMBERS_TO_CHECK
      (CheckEnv.mk (Except.ok ())
        ⟨Except.error "timeout", Except.ok 0, [Except.ok false, Except.error "detached"]⟩
        [QueryOutcome.page (some "x"), QueryOutcome.page (some "y")])
      "t" "c" (Except.ok 200), Event.isHttp ev = false :=
  claim6_missing_search_input NUMBERS_TO_CHECK
    (CheckEnv.mk (Except.ok ())
      ⟨Except.error "timeout", Except.ok 0, [Except.ok false, Except.error "detached"]⟩
      [QueryOutcome.page (some "x"), QueryOutcome.page (some "y")])
    "t" "c" (Except.ok 200) rfl
    (by intro n hn; simp at hn)
    (by intro n hn; injection hn with hx; exact hx.symm)
    (by simp)

/-- Claim C7: notification delivery failure is contained — the notifier
returns normally on every input (no exception propagates to its caller),
and when credentials pass the guard, a transport exception or a non-200
status each leave an error log in the trace. -/
theorem claim7_delivery_failure_contained (token chatId text e : String) (s : Nat)
    (hg : credGuard token chatId = false) (hs : s ≠ 200) :
    (∀ tk ci tx : String, ∀ n : Except String Nat,
        (send_telegram_message tk ci tx n).2 = Except.ok ()) ∧
    Event.log ("[ERROR] Exception while sending Telegram message: " ++ e) ∈
      (send_telegram_message token chatId text (Except.error e)).1 ∧
    Event.log "[ERROR] Failed to send Telegram message:" ∈
      (send_telegram_message token chatId text (Except.ok s)).1 := by
  refine ⟨?_, ?_, ?_⟩
  · intro tk ci tx n
    unfold send_telegram_message
    cases hcg : credGuard tk ci with
    | true => simp
    | false =>
      cases n with
      | error e2 => simp
      | ok st =>
        by_cases h200 : st = 200 <;> simp [h200]
  · simp [send_telegram_message, hg]
  · simp [send_telegram_message, hg, hs]

/-- Witness for C7: credentials "t"/"c" pass the guard; a transport
exception "conn reset" and a 500 status are both logged and returned
from normally. -/
theorem claim7_witness :
    (∀ tk ci tx : String, ∀ n : Except String Nat,
        (send_telegram_message tk ci tx n).2 = Except.ok ()) ∧
    Event.log ("[ERROR] Exception while sending Telegram message: " ++ "conn reset") ∈
      (send_telegram_message "t" "c" "hello" (Except.error "conn reset")).1 ∧
    Event.log "[ERROR] Failed to send Telegram message:" ∈
      (send_telegram_message "t" "c" "hello" (Except.ok 500)).1 :=
  claim7_delivery_failure_contained "t" "c" "hello" "conn reset" 500
    (by decide) (by decide)

/-- Claim C8: absent (empty) or placeholder-sentinel credentials make the
notifier skip sending entirely — the trace is exactly one warning log and
contains no HTTP call. -/
theorem claim8_missing_credentials_skip (token chatId text : String)
    (net : Except String Nat)
    (h : token = "" ∨ chatId = "" ∨
         strContains token "PUT_YOUR" = true ∨ strContains chatId "PUT_YOUR" = true) :
    (send_telegram_message token chatId text net).1 =
      [Event.log "[WARN] Telegram credentials not set; skipping notification."] ∧
    ∀ ev ∈ (send_telegram_message token chatId text net).1, Event.isHttp ev = false := by
  have hcg : credGuard token chatId = true := by
    rcases h with rfl | rfl | hp | hp
    · simp [credGuard]
    · simp [credGuard]
    · simp [credGuard, hp]
    · simp [credGuard, hp]
  constructor
  · simp [send_telegram_message, hcg]
  · intro ev hev
    simp [send_telegram_message, hcg] at hev
    subst hev
    rfl

/-- Witness for C8: an empty bot token skips delivery with a warning. -/
theorem claim8_witness :
    (send_telegram_message "" "1479175062" "hi" (Except.ok 200)).1 =
      [Event.log "[WARN] Telegram credentials not set; skipping notification."] ∧
    ∀ ev ∈ (send_telegram_message "" "1479175062" "hi" (Except.ok 200)).1,
      Event.isHttp ev = false :=
  claim8_missing_credentials_skip "" "1479175062" "hi" (Except.ok 200) (Or.inl rfl)

/-- Claim C9: a fragment that is empty or consists only of spaces has an
empty normalized form, which is contained in every normalized page text,
so the query is classified available whenever the page text — including
an absent (`none`) or empty body, absent being read as `""` — lacks the
"No results found" marker. -/
theorem claim9_blank_fragment_available (t : Option String) (fragment : String)
    (hf : fragment.data.all (fun c => c == ' ') = true)
    (hm : strContains (t.getD "") "No results found" = false) :
    classify (t.getD "") fragment = Classification.available := by
  have hfrag : (stripSpaces fragment).data = [] := by
    show (fragment.data.filter (fun c => c != ' ')) = []
    rw [List.filter_eq_nil_iff]
    intro a ha
    have := List.all_eq_true.mp hf a ha
    simp_all
  have hc : strContains (stripSpaces (t.getD "")) (stripSpaces fragment) = true := by
    unfold strContains
    rw [hfrag]
    exact containsAux_nil _
  simp [classify, hm, hc]

/-- Witness for C9: the empty fragment against an absent body text is
classified available. -/
theorem claim9_witness :
    classify ((none : Option String).getD "") "" = Classification.available :=
  claim9_blank_fragment_available none "" (by decide) (by decide)

/-- Claim C10: for every sequence of page texts and per-query failures,
the available set collected by the per-number loop is a subsequence of
the configured query list — each element is a configured pair, taken at
most once per configured occurrence, in configuration order. -/
theorem claim10_available_sublist_of_config (queries : List (String × String))
    (outcomes : List QueryOutcome) :
    List.Sublist (runQueries (queries.zip outcomes)).1 queries := by
  induction queries generalizing outcomes with
  | nil => simp [runQueries]
  | cons q qs ih =>
    cases outcomes with
    | nil =>
      simp only [List.zip_nil_right]
      exact List.nil_sublist (q :: qs)
    | cons o os =>
      rw [List.zip_cons_cons]
      cases o with
      | exn e =>
        simp only [runQueries]
        exact (ih os).cons q
      | page t =>
        cases hc : classify (t.getD "") q.2 with
        | unavailable =>
          simp only [runQueries, hc]
          exact (ih os).cons q
        | available =>
          simp only [runQueries, hc]
          exact (ih os).cons₂ q
        | ambiguous =>
          simp only [runQueries, hc]
          exact (ih os).cons q
